import Mathlib

/-!
# Session lifecycle and outbound dispatch of the WhatsApp Meow service

A shallow embedding of `services/service.go`, `handlers/handlers.go` and
`models/models.go`.

* The two SQL tables the service touches are lists of rows, in storage order.
  `db.QueryRow(...).Scan` yields the first row matching the `WHERE` clause,
  `UPDATE ... WHERE` rewrites every matching row, `INSERT` appends a row.
* The Go receiver `*WhatsAppMeowService` becomes an explicit state value that
  every method takes and returns.  Besides the fields of the Go struct it
  carries the two tables reached through `s.db`, and three observation fields:
  the number of transport clients constructed, the sequence of calls made into
  the transport library and the lines written with the `log` package.
* Everything the code obtains from outside the repository (the clock, driver
  errors of the database, the outcome of the transport library calls, JID
  parsing) is read from an `Env` value, one per method call.
* Go `error` values are their message strings; `nil` is `none`.  A Go result
  pair `(string, error)` is an `Except String String`.
-/

set_option linter.dupNamespace false

namespace WhatsMeow

deriving instance DecidableEq for Except

/-! ## models/models.go -/

/-- Go type `models.WhatsAppMeowConnectionStatus`, a string. -/
abbrev WhatsAppMeowConnectionStatus := String

def ConnectionStatusDisconnected : WhatsAppMeowConnectionStatus := "DISCONNECTED"
def ConnectionStatusConnecting : WhatsAppMeowConnectionStatus := "CONNECTING"
def ConnectionStatusConnected : WhatsAppMeowConnectionStatus := "CONNECTED"
def ConnectionStatusPairing : WhatsAppMeowConnectionStatus := "PAIRING"
def ConnectionStatusPaired : WhatsAppMeowConnectionStatus := "PAIRED"
def ConnectionStatusError : WhatsAppMeowConnectionStatus := "ERROR"

/-- Go type `models.SessionData`; the untyped map is kept as key/value text. -/
structure SessionData where
  DeviceID : String
  SessionData : List (String × String)
  Encrypted : Bool
  deriving DecidableEq, Repr

/-- Go type `models.WhatsAppMeowAccount`; a pointer field is an `Option`,
a `time.Time` is a number. -/
structure WhatsAppMeowAccount where
  ID : String
  OrganizationID : String
  DeviceID : String
  SessionData : Option SessionData
  QRCode : Option String
  IsConnected : Bool
  IsPaired : Bool
  PhoneNumber : Option String
  DisplayName : Option String
  ProfilePicture : Option String
  LastSeen : Option Nat
  ConnectionStatus : WhatsAppMeowConnectionStatus
  CreatedAt : Nat
  UpdatedAt : Nat
  deriving DecidableEq, Repr

/-- Go type `models.SendMessageRequest`. -/
structure SendMessageRequest where
  OrganizationID : String
  ToJID : String
  MessageType : String
  MessageText : String
  MediaURL : String
  MediaType : String
  LeadID : String
  deriving DecidableEq, Repr

/-- Go type `models.SendMessageResponse`. -/
structure SendMessageResponse where
  Success : Bool
  MessageID : String
  Error : String
  deriving DecidableEq, Repr

/-! ## The relational store -/

/-- One row of table `"WhatsAppMeowAccount"`, with the columns that
`getAccount` selects.  The columns scanned into nullable holders
(`sql.NullString`, `sql.NullTime`) are `Option`s. -/
structure AccountRow where
  id : String
  organization_id : String
  device_id : String
  session_data : Option String
  qr_code : Option String
  is_connected : Bool
  is_paired : Bool
  phone_number : Option String
  display_name : Option String
  profile_picture : Option String
  last_seen : Option Nat
  connection_status : WhatsAppMeowConnectionStatus
  created_at : Nat
  updated_at : Nat
  deriving DecidableEq, Repr

/-- One row of table `"WhatsAppMeowMessage"`, with the nine columns that the
`INSERT` of `saveMessage` supplies. -/
structure MessageRow where
  whats_app_meow_account_id : String
  message_id : String
  lead_id : String
  from_jid : String
  to_jid : String
  message_type : String
  message_text : String
  is_sent : Bool
  timestamp : Nat
  deriving DecidableEq, Repr

/-! ## The transport library -/

/-- Library type `types.JID`, as produced by `types.ParseJID`. -/
structure JID where
  User : String
  Server : String
  deriving DecidableEq, Repr

/-- A `*whatsmeow.Client`.  `id` stands for the identity of the pointer (the
number of clients constructed before this one) and `device` is the device
identifier whose device store entry the client was constructed from. -/
structure Client where
  id : Nat
  device : String
  deriving DecidableEq, Repr

/-- The calls the service makes into the transport library. -/
inductive TransportCall where
  | sqlstoreNew (databaseURL : String)
  | getDevice (deviceID : String)
  | newClient (c : Client)
  | addEventHandler (c : Client)
  | connect (c : Client)
  | disconnect (c : Client)
  | sendMessage (c : Client) (toJID : JID) (text : String)
  deriving DecidableEq, Repr

/-- Whether a call constructs a transport client (`whatsmeow.NewClient`). -/
def TransportCall.isNewClient : TransportCall → Bool
  | .newClient _ => true
  | _ => false

/-- What one method call obtains from outside the repository. -/
structure Env where
  /-- the value of `time.Now()` -/
  now : Nat
  /-- the error of `db.Exec`, if the store rejects the statement -/
  execErr : Option String
  /-- a driver error of `db.QueryRow(...).Scan` other than a missing row -/
  queryErr : Option String
  /-- the error of `sqlstore.New`, if any -/
  storeErr : Option String
  /-- the error of `deviceStore.GetDevice`, if any -/
  deviceErr : String → Option String
  /-- the error of `client.Connect`, if any -/
  connectErr : Option String
  /-- the library function `types.ParseJID` -/
  parseJID : String → Except String JID
  /-- the outcome of `client.SendMessage`: the identifier given to the message,
  or an error -/
  send : Client → JID → String → Except String String

/-! ## services/service.go -/

/-- Go type `services.WhatsAppMeowService`.  `client` is the single `client`
field of the Go struct; `accounts` and `messages` are the tables behind `db`;
`databaseURL` is `config.DatabaseURL`.  `clients` counts the transport clients
constructed so far, `transport` records the calls into the transport library
and `log` the lines written with `log.Printf` and `log.Println`. -/
structure WhatsAppMeowService where
  databaseURL : String
  accounts : List AccountRow
  messages : List MessageRow
  client : Option Client
  clients : Nat
  transport : List TransportCall
  log : List String
  deriving DecidableEq, Repr

/-- The message of `sql.ErrNoRows`. -/
def ErrNoRows : String := "sql: no rows in result set"

/-- The field assignments at the end of `getAccount`: every nullable column
that is valid is copied; a valid `session_data` yields an empty
`SessionData` (the source leaves the parse out). -/
def scanAccount (r : AccountRow) : WhatsAppMeowAccount :=
  { ID := r.id
    OrganizationID := r.organization_id
    DeviceID := r.device_id
    SessionData := r.session_data.map
      (fun _ => { DeviceID := "", SessionData := [], Encrypted := false })
    QRCode := r.qr_code
    IsConnected := r.is_connected
    IsPaired := r.is_paired
    PhoneNumber := r.phone_number
    DisplayName := r.display_name
    ProfilePicture := r.profile_picture
    LastSeen := r.last_seen
    ConnectionStatus := r.connection_status
    CreatedAt := r.created_at
    UpdatedAt := r.updated_at }

/-- The rows selected by `WHERE organization_id = $1`. -/
def ofTenant (organizationID : String) (r : AccountRow) : Bool :=
  r.organization_id == organizationID

/-- Method `getAccount`: the first row of the tenant, or the error of the
query (`sql.ErrNoRows` when no row matches). -/
def getAccount (env : Env) (s : WhatsAppMeowService) (organizationID : String) :
    Except String WhatsAppMeowAccount :=
  match env.queryErr with
  | some e => .error e
  | none =>
    match s.accounts.find? (ofTenant organizationID) with
    | none => .error ErrNoRows
    | some r => .ok (scanAccount r)

/-- Method `initializeClient`: creates the device store, gets the device of
the account, constructs a client from it, registers the event handler and
connects.  Only when all of that succeeds is the new client stored in
`s.client`, replacing whatever was there. -/
def initializeClient (env : Env) (s : WhatsAppMeowService)
    (account : WhatsAppMeowAccount) : WhatsAppMeowService × Option String :=
  let s1 := { s with transport := s.transport ++ [.sqlstoreNew s.databaseURL] }
  match env.storeErr with
  | some e => (s1, some ("failed to create device store: " ++ e))
  | none =>
    let s2 := { s1 with transport := s1.transport ++ [.getDevice account.DeviceID] }
    match env.deviceErr account.DeviceID with
    | some e => (s2, some ("failed to get device: " ++ e))
    | none =>
      let client : Client := { id := s2.clients, device := account.DeviceID }
      let s3 := { s2 with
        clients := s2.clients + 1
        transport := s2.transport ++
          [.newClient client, .addEventHandler client, .connect client] }
      match env.connectErr with
      | some e => (s3, some ("failed to connect: " ++ e))
      | none => ({ s3 with client := some client }, none)

/-- Method `sendTextMessage`: hands the text to `s.client.SendMessage` and
returns the identifier of the response.  The caller has made sure that
`s.client` is set; on a nil client the Go code would stop with a nil
dereference, rendered as an error here. -/
def sendTextMessage (env : Env) (s : WhatsAppMeowService) (toJID : JID)
    (text : String) : WhatsAppMeowService × Except String String :=
  match s.client with
  | none => (s, .error "invalid memory address or nil pointer dereference")
  | some c =>
    ({ s with transport := s.transport ++ [.sendMessage c toJID text] },
      env.send c toJID text)

/-- Method `sendImageMessage`. -/
def sendImageMessage (_toJID : JID) (_caption _mediaURL : String) :
    Except String String :=
  .error "image messages not yet implemented"

/-- Method `sendVideoMessage`. -/
def sendVideoMessage (_toJID : JID) (_caption _mediaURL : String) :
    Except String String :=
  .error "video messages not yet implemented"

/-- Method `sendAudioMessage`. -/
def sendAudioMessage (_toJID : JID) (_mediaURL : String) : Except String String :=
  .error "audio messages not yet implemented"

/-- Method `sendDocumentMessage`. -/
def sendDocumentMessage (_toJID : JID) (_caption _mediaURL : String) :
    Except String String :=
  .error "document messages not yet implemented"

/-- The row that the `INSERT` of `saveMessage` supplies. -/
def messageRow (now : Nat) (accountID : String) (req : SendMessageRequest)
    (messageID : String) : MessageRow :=
  { whats_app_meow_account_id := accountID
    message_id := messageID
    lead_id := req.LeadID
    from_jid := ""
    to_jid := req.ToJID
    message_type := req.MessageType
    message_text := req.MessageText
    is_sent := true
    timestamp := now }

/-- Method `saveMessage`: one `INSERT` into the message table. -/
def saveMessage (env : Env) (s : WhatsAppMeowService) (accountID : String)
    (req : SendMessageRequest) (messageID : String) :
    WhatsAppMeowService × Option String :=
  match env.execErr with
  | some e => (s, some e)
  | none =>
    ({ s with messages := s.messages ++ [messageRow env.now accountID req messageID] },
      none)

/-- The `switch req.MessageType` of `SendMessage`: `none` is the `default`
branch. -/
def dispatch (env : Env) (s : WhatsAppMeowService) (toJID : JID)
    (req : SendMessageRequest) :
    Option (WhatsAppMeowService × Except String String) :=
  if req.MessageType = "text" then
    some (sendTextMessage env s toJID req.MessageText)
  else if req.MessageType = "image" then
    some (s, sendImageMessage toJID req.MessageText req.MediaURL)
  else if req.MessageType = "video" then
    some (s, sendVideoMessage toJID req.MessageText req.MediaURL)
  else if req.MessageType = "audio" then
    some (s, sendAudioMessage toJID req.MediaURL)
  else if req.MessageType = "document" then
    some (s, sendDocumentMessage toJID req.MessageText req.MediaURL)
  else
    none

/-- The part of `SendMessage` after the client is known to be set: parse the
JID, dispatch on the message type, save the message. -/
def sendWithClient (env : Env) (s : WhatsAppMeowService)
    (account : WhatsAppMeowAccount) (req : SendMessageRequest) :
    WhatsAppMeowService × Except String String :=
  match env.parseJID req.ToJID with
  | .error e => (s, .error ("invalid JID: " ++ e))
  | .ok toJID =>
    match dispatch env s toJID req with
    | none => (s, .error ("unsupported message type: " ++ req.MessageType))
    | some (s1, .error e) => (s1, .error ("failed to send message: " ++ e))
    | some (s1, .ok messageID) =>
      match saveMessage env s1 account.ID req messageID with
      | (s2, some e) =>
        ({ s2 with log := s2.log ++ ["Failed to save message: " ++ e] }, .ok messageID)
      | (s2, none) => (s2, .ok messageID)

/-- Method `SendMessage`. -/
def SendMessage (env : Env) (s : WhatsAppMeowService) (req : SendMessageRequest) :
    WhatsAppMeowService × Except String String :=
  match getAccount env s req.OrganizationID with
  | .error e => (s, .error ("failed to get account: " ++ e))
  | .ok account =>
    if !account.IsConnected then
      (s, .error "account is not connected")
    else
      match s.client with
      | none =>
        match initializeClient env s account with
        | (s1, some e) => (s1, .error ("failed to initialize client: " ++ e))
        | (s1, none) => sendWithClient env s1 account req
      | some _ => sendWithClient env s account req

/-- Method `GetAccount`. -/
def GetAccount (env : Env) (s : WhatsAppMeowService) (organizationID : String) :
    WhatsAppMeowService × Except String WhatsAppMeowAccount :=
  (s, getAccount env s organizationID)

/-- Method `GetQRCode`. -/
def GetQRCode (env : Env) (s : WhatsAppMeowService) (organizationID : String) :
    WhatsAppMeowService × Except String String :=
  match getAccount env s organizationID with
  | .error e => (s, .error e)
  | .ok account =>
    match account.QRCode with
    | none => (s, .error "QR code not available")
    | some qr => (s, .ok qr)

/-- The `UPDATE` of `Connect`, applied to one row. -/
def setConnecting (now : Nat) (organizationID : String) (r : AccountRow) : AccountRow :=
  if ofTenant organizationID r then
    { r with connection_status := "CONNECTING", updated_at := now }
  else r

/-- Method `Connect`.  The parameter `deviceID` is not used by the source. -/
def Connect (env : Env) (s : WhatsAppMeowService) (organizationID _deviceID : String) :
    WhatsAppMeowService × Option String :=
  match env.execErr with
  | some e => (s, some ("failed to update connection status: " ++ e))
  | none =>
    let s1 := { s with accounts := s.accounts.map (setConnecting env.now organizationID) }
    match getAccount env s1 organizationID with
    | .error e => (s1, some e)
    | .ok account => initializeClient env s1 account

/-- The `UPDATE` of `Disconnect`, applied to one row. -/
def setDisconnected (now : Nat) (organizationID : String) (r : AccountRow) : AccountRow :=
  if ofTenant organizationID r then
    { r with connection_status := "DISCONNECTED", is_connected := false, updated_at := now }
  else r

/-- Method `Disconnect`. -/
def Disconnect (env : Env) (s : WhatsAppMeowService) (organizationID : String) :
    WhatsAppMeowService × Option String :=
  let s1 :=
    match s.client with
    | some c => { s with transport := s.transport ++ [.disconnect c], client := none }
    | none => s
  match env.execErr with
  | some e => (s1, some e)
  | none =>
    ({ s1 with accounts := s1.accounts.map (setDisconnected env.now organizationID) }, none)

/-- The asynchronous events of the transport library: the five kinds that
`eventHandler` has a case for, and every other dynamic type. -/
inductive Event where
  | Message (sender conversation : String)
  | Connected
  | Disconnected
  | LoggedOut
  | QR (codes : List String)
  | Other (kind : String)
  deriving DecidableEq, Repr

/-- Method `handleIncomingMessage`. -/
def handleIncomingMessage (s : WhatsAppMeowService) (sender conversation : String) :
    WhatsAppMeowService :=
  { s with log := s.log ++ ["Received message from " ++ sender ++ ": " ++ conversation] }

/-- Method `handleConnected`. -/
def handleConnected (s : WhatsAppMeowService) : WhatsAppMeowService :=
  { s with log := s.log ++ ["Connected to WhatsApp"] }

/-- Method `handleDisconnected`. -/
def handleDisconnected (s : WhatsAppMeowService) : WhatsAppMeowService :=
  { s with log := s.log ++ ["Disconnected from WhatsApp"] }

/-- Method `handleLoggedOut`. -/
def handleLoggedOut (s : WhatsAppMeowService) : WhatsAppMeowService :=
  { s with log := s.log ++ ["Logged out from WhatsApp"] }

/-- Method `handleQRCode`. -/
def handleQRCode (s : WhatsAppMeowService) (_codes : List String) : WhatsAppMeowService :=
  { s with log := s.log ++ ["QR code received"] }

/-- Method `eventHandler`: the type switch on the event; a type without a case
falls through. -/
def eventHandler (s : WhatsAppMeowService) : Event → WhatsAppMeowService
  | .Message sender conversation => handleIncomingMessage s sender conversation
  | .Connected => handleConnected s
  | .Disconnected => handleDisconnected s
  | .LoggedOut => handleLoggedOut s
  | .QR codes => handleQRCode s codes
  | .Other _ => s

/-! ## handlers/handlers.go -/

/-- What a handler writes to the `http.ResponseWriter`: the status code and
either a plain text body (`http.Error`) or a JSON encoded response. -/
structure HTTPResponse where
  status : Nat
  text : Option String
  json : Option SendMessageResponse
  deriving DecidableEq, Repr

def StatusOK : Nat := 200
def StatusBadRequest : Nat := 400
def StatusMethodNotAllowed : Nat := 405
def StatusInternalServerError : Nat := 500

/-- Method `sendErrorResponse`. -/
def sendErrorResponse (s : WhatsAppMeowService) (message err : String) (statusCode : Nat) :
    WhatsAppMeowService × HTTPResponse :=
  ({ s with log := s.log ++ ["Error: " ++ message ++ " - " ++ err] },
    { status := statusCode
      text := none
      json := some { Success := false, MessageID := "", Error := message ++ ": " ++ err } })

/-- Method `Handlers.SendMessage`.  `body` is the outcome of decoding the
request body as JSON into a `SendMessageRequest`. -/
def Handlers.SendMessage (env : Env) (s : WhatsAppMeowService) (method : String)
    (body : Except String SendMessageRequest) : WhatsAppMeowService × HTTPResponse :=
  if method ≠ "POST" then
    (s, { status := StatusMethodNotAllowed, text := some "Method not allowed", json := none })
  else
    match body with
    | .error e => sendErrorResponse s "Invalid JSON" e StatusBadRequest
    | .ok req =>
      if req.OrganizationID = "" ∨ req.ToJID = "" ∨ req.MessageType = "" then
        sendErrorResponse s "Missing required fields"
          "organizationId, toJID, and messageType are required" StatusBadRequest
      else
        match WhatsMeow.SendMessage env s req with
        | (s1, .error e) =>
          sendErrorResponse s1 "Failed to send message" e StatusInternalServerError
        | (s1, .ok messageID) =>
          (s1, { status := StatusOK
                 text := none
                 json := some { Success := true, MessageID := messageID, Error := "" } })

/-! ## Auxiliary definitions for the statements -/

/-- The client a send goes through: the one in `s.client`, or, when that is
nil, the one `initializeClient` constructs from the device of the account
row, provided each step of the construction succeeds. -/
def sendsThrough (env : Env) (s : WhatsAppMeowService) (r : AccountRow) (c : Client) : Prop :=
  s.client = some c ∨
    (s.client = none ∧ env.storeErr = none ∧ env.deviceErr r.device_id = none ∧
      env.connectErr = none ∧ c = { id := s.clients, device := r.device_id })

/-- A row of the tenant with only `updated_at` rewritten; other rows as they
are. -/
def touch (now : Nat) (organizationID : String) (r : AccountRow) : AccountRow :=
  if ofTenant organizationID r then { r with updated_at := now } else r

/-- The calls that a complete `initializeClient` makes for client `c`. -/
def constructionCalls (databaseURL : String) (c : Client) : List TransportCall :=
  [.sqlstoreNew databaseURL, .getDevice c.device, .newClient c, .addEventHandler c,
    .connect c]

/-! ## Concrete stores, environments and requests -/

/-- An account row of tenant `org1` with the given state columns. -/
def accountRow (status : WhatsAppMeowConnectionStatus) (isConnected : Bool)
    (qr : Option String) : AccountRow :=
  { id := "acc1"
    organization_id := "org1"
    device_id := "dev1"
    session_data := none
    qr_code := qr
    is_connected := isConnected
    is_paired := false
    phone_number := none
    display_name := none
    profile_picture := none
    last_seen := none
    connection_status := status
    created_at := 1
    updated_at := 2 }

/-- A service value over the given account table and client field, with an
empty message table. -/
def service (accounts : List AccountRow) (client : Option Client) : WhatsAppMeowService :=
  { databaseURL := "postgres://localhost:5432/skyfunnel"
    accounts := accounts
    messages := []
    client := client
    clients := 1
    transport := []
    log := [] }

/-- The client that the concrete services hold. -/
def client0 : Client := { id := 0, device := "dev1" }

/-- An environment in which every outside call succeeds and the transport
gives every message the identifier `MSG1`. -/
def envOk : Env :=
  { now := 7
    execErr := none
    queryErr := none
    storeErr := none
    deviceErr := fun _ => none
    connectErr := none
    parseJID := fun a => .ok { User := a, Server := "s.whatsapp.net" }
    send := fun _ _ _ => .ok "MSG1" }

/-- A request of tenant `org1` to `1555@proto` of the given kind with text `hi`. -/
def request (kind : String) : SendMessageRequest :=
  { OrganizationID := "org1"
    ToJID := "1555@proto"
    MessageType := kind
    MessageText := "hi"
    MediaURL := ""
    MediaType := ""
    LeadID := "" }

/-- The state after `Connect` on a tenant whose row is `CONNECTED` with
`is_connected` set: the row is `CONNECTING`, `is_connected` is still set. -/
def reconnecting : WhatsAppMeowService :=
  (Connect envOk (service [accountRow "CONNECTED" true none] none) "org1" "dev1").1

/-- An environment like `envOk` whose transport rejects every message. -/
def envSendFails : Env :=
  { envOk with send := fun _ _ _ => .error "websocket not connected" }

/-- An environment like `envOk` whose store rejects every statement. -/
def envExecFails : Env :=
  { envOk with execErr := some "pq: connection refused" }

/-- The environment `envOk` at a later time. -/
def envLater : Env := { envOk with now := 9 }

/-- A row of the given tenant and device, in state `CONNECTED` with
`is_connected` set. -/
def tenantRow (organizationID deviceID : String) : AccountRow :=
  { accountRow "CONNECTED" true none with
    id := "acc-" ++ organizationID
    organization_id := organizationID
    device_id := deviceID }

/-- A store with two connected tenants, `orgA` on device `devA` and `orgB` on
device `devB`, and no client yet. -/
def twoTenants : WhatsAppMeowService :=
  service [tenantRow "orgA" "devA", tenantRow "orgB" "devB"] none

/-- A text request of the given tenant. -/
def requestOf (organizationID : String) : SendMessageRequest :=
  { request "text" with OrganizationID := organizationID }

/-- The state after a first text send of tenant `orgA`, which constructs a
client from `devA`. -/
def afterSendA : WhatsAppMeowService :=
  (SendMessage envOk twoTenants (requestOf "orgA")).1

/-- The state after a first text send of tenant `orgB`, which constructs a
client from `devB`. -/
def afterSendB : WhatsAppMeowService :=
  (SendMessage envOk twoTenants (requestOf "orgB")).1

/-- An environment like `envOk` in which `client.Connect` fails. -/
def envConnectFails : Env :=
  { envOk with connectErr := some "dial timeout" }

/-! ## Sending -/

/-- C1 (as stated, refuted): the gate of `SendMessage` is the column
`is_connected`, not the connection state.  After a `Connect` on a connected
tenant the state is `CONNECTING` and a text send is still dispatched and
recorded with `is_sent = true`; the same happens on a row in state `PAIRING`
whose `is_connected` is set. -/
theorem SendMessage_dispatches_outside_connected_state :
    reconnecting.accounts.map (fun r => (r.connection_status, r.is_connected))
        = [("CONNECTING", true)] ∧
      (SendMessage envOk reconnecting (request "text")).2 = .ok "MSG1" ∧
      (SendMessage envOk reconnecting (request "text")).1.messages.map (fun m => m.is_sent)
        = [true] ∧
      (SendMessage envOk reconnecting (request "text")).1.transport
        = reconnecting.transport ++
            [.sendMessage { id := 1, device := "dev1" }
              { User := "1555@proto", Server := "s.whatsapp.net" } "hi"] ∧
      (SendMessage envOk (service [accountRow "PAIRING" true none] (some client0))
        (request "text")).2 = .ok "MSG1" := by
  refine ⟨by decide, by decide, by decide, by decide, by decide⟩

/-- C1 (amended): when the tenant has no account row, or the row that
`getAccount` reads has `is_connected = false`, `SendMessage` returns an error
and the whole service value is as before: no call into the transport library,
no client, no message row, no log line.  With a readable row the error is
`account is not connected`. -/
theorem SendMessage_refuses_when_not_marked_connected (env : Env)
    (s : WhatsAppMeowService) (req : SendMessageRequest)
    (h : ∀ r, s.accounts.find? (ofTenant req.OrganizationID) = some r →
      r.is_connected = false) :
    (∃ e, (SendMessage env s req).2 = .error e) ∧
      (SendMessage env s req).1 = s ∧
      (∀ r, env.queryErr = none →
        s.accounts.find? (ofTenant req.OrganizationID) = some r →
        (SendMessage env s req).2 = .error "account is not connected") := by
  unfold SendMessage getAccount
  cases hq : env.queryErr with
  | some e => simp
  | none =>
    cases hf : s.accounts.find? (ofTenant req.OrganizationID) with
    | none => simp
    | some r =>
      have hr := h r hf
      simp [scanAccount, hr]

/-- C1, at a tenant in state `DISCONNECTED` and at a tenant without a row. -/
theorem SendMessage_refuses_when_not_marked_connected_witness :
    ((∃ e, (SendMessage envOk (service [accountRow "DISCONNECTED" false none] (some client0))
        (request "text")).2 = .error e) ∧
      (SendMessage envOk (service [accountRow "DISCONNECTED" false none] (some client0))
        (request "text")).1 = service [accountRow "DISCONNECTED" false none] (some client0) ∧
      (∀ r, envOk.queryErr = none →
        (service [accountRow "DISCONNECTED" false none] (some client0)).accounts.find?
          (ofTenant (request "text").OrganizationID) = some r →
        (SendMessage envOk (service [accountRow "DISCONNECTED" false none] (some client0))
          (request "text")).2 = .error "account is not connected")) ∧
    (SendMessage envOk (service [] none) (request "text")).1 = service [] none :=
  ⟨SendMessage_refuses_when_not_marked_connected envOk
      (service [accountRow "DISCONNECTED" false none] (some client0)) (request "text")
      (by
        intro r hr
        have h0 : (service [accountRow "DISCONNECTED" false none] (some client0)).accounts.find?
            (ofTenant (request "text").OrganizationID)
            = some (accountRow "DISCONNECTED" false none) := by decide
        rw [h0] at hr
        cases hr
        rfl),
    (SendMessage_refuses_when_not_marked_connected envOk (service [] none) (request "text")
      (by intro r hr; cases hr)).2.1⟩

/-- The part of `SendMessage` up to the parsed JID, under the conditions that
let it reach the dispatch. -/
theorem SendMessage_reaches_dispatch (env : Env) (s : WhatsAppMeowService)
    (req : SendMessageRequest) (r : AccountRow) (c : Client)
    (hq : env.queryErr = none)
    (hr : s.accounts.find? (ofTenant req.OrganizationID) = some r)
    (hc : r.is_connected = true)
    (hcl : sendsThrough env s r c) :
    ∃ s1, SendMessage env s req = sendWithClient env s1 (scanAccount r) req ∧
      s1.client = some c ∧ s1.messages = s.messages ∧ s1.accounts = s.accounts := by
  unfold SendMessage getAccount
  rcases hcl with hcl | ⟨hn, h1, h2, h3, h4⟩
  · exact ⟨s, by simp [hq, hr, scanAccount, hc, hcl], hcl, rfl, rfl⟩
  · refine ⟨(initializeClient env s (scanAccount r)).1, ?_, ?_, ?_, ?_⟩
    · simp [hq, hr, hn, hc, scanAccount, initializeClient, h1, h2, h3]
    · simp [scanAccount, initializeClient, h1, h2, h3, h4]
    · simp [scanAccount, initializeClient, h1, h2, h3]
    · simp [scanAccount, initializeClient, h1, h2, h3]

/-- Method `initializeClient` touches neither table. -/
theorem initializeClient_tables (env : Env) (s : WhatsAppMeowService)
    (account : WhatsAppMeowAccount) :
    (initializeClient env s account).1.messages = s.messages ∧
      (initializeClient env s account).1.accounts = s.accounts := by
  unfold initializeClient
  cases env.storeErr <;> cases env.deviceErr account.DeviceID <;>
    cases env.connectErr <;> simp

/-- The dispatch on the message type touches neither table nor the client
field. -/
theorem dispatch_frame (env : Env) (s s1 : WhatsAppMeowService) (toJID : JID)
    (req : SendMessageRequest) (res : Except String String)
    (h : dispatch env s toJID req = some (s1, res)) :
    s1.messages = s.messages ∧ s1.accounts = s.accounts ∧ s1.client = s.client := by
  unfold dispatch at h
  split_ifs at h
  · unfold sendTextMessage at h
    cases hc : s.client with
    | none => simp [hc] at h; obtain ⟨h1, -⟩ := h; subst h1; simp [hc]
    | some c => simp [hc] at h; obtain ⟨h1, -⟩ := h; subst h1; simp [hc]
  all_goals
    simp at h
    obtain ⟨h1, -⟩ := h
    subst h1
    simp

/-- An error result of `sendWithClient` comes with an unchanged message table. -/
theorem sendWithClient_error_keeps_messages (env : Env) (s : WhatsAppMeowService)
    (account : WhatsAppMeowAccount) (req : SendMessageRequest) (e : String)
    (h : (sendWithClient env s account req).2 = .error e) :
    (sendWithClient env s account req).1.messages = s.messages := by
  unfold sendWithClient at h ⊢
  cases hj : env.parseJID req.ToJID with
  | error e1 => simp
  | ok j =>
    simp only [hj] at h ⊢
    cases hd : dispatch env s j req with
    | none => simp [hd]
    | some p =>
      obtain ⟨s1, res⟩ := p
      have hf := dispatch_frame env s s1 j req res hd
      cases res with
      | error e1 => simpa [hd] using hf.1
      | ok m =>
        simp only [hd] at h
        unfold saveMessage at h
        cases hx : env.execErr <;> simp [hx] at h

/-- Whatever `SendMessage` does, an error result comes with an unchanged message
table. -/
theorem SendMessage_error_keeps_messages (env : Env) (s : WhatsAppMeowService)
    (req : SendMessageRequest) (e : String)
    (h : (SendMessage env s req).2 = .error e) :
    (SendMessage env s req).1.messages = s.messages := by
  unfold SendMessage at h ⊢
  cases hg : getAccount env s req.OrganizationID with
  | error e1 => simp
  | ok account =>
    simp only [hg] at h ⊢
    split_ifs at h ⊢ with hcn
    · rfl
    · cases hcl : s.client with
      | some c =>
        simp only [hcl] at h ⊢
        exact sendWithClient_error_keeps_messages env s account req e h
      | none =>
        simp only [hcl] at h ⊢
        have ht := initializeClient_tables env s account
        cases hi : initializeClient env s account with
        | mk s1 oe =>
          rw [hi] at ht
          cases oe with
          | some e1 => simpa using ht.1
          | none =>
            simp only [hi] at h ⊢
            rw [sendWithClient_error_keeps_messages env s1 account req e h]
            exact ht.1

/-- The function `sendWithClient` leaves the account table alone. -/
theorem sendWithClient_accounts (env : Env) (s : WhatsAppMeowService)
    (account : WhatsAppMeowAccount) (req : SendMessageRequest) :
    (sendWithClient env s account req).1.accounts = s.accounts := by
  unfold sendWithClient
  cases hj : env.parseJID req.ToJID with
  | error e1 => simp
  | ok j =>
    simp only [hj]
    cases hd : dispatch env s j req with
    | none => simp [hd]
    | some p =>
      obtain ⟨s1, res⟩ := p
      have hf := dispatch_frame env s s1 j req res hd
      cases res with
      | error e1 => simpa [hd] using hf.2.1
      | ok m =>
        simp only [hd]
        unfold saveMessage
        cases hx : env.execErr <;> simpa [hx] using hf.2.1

/-- Method `SendMessage` leaves the account table alone. -/
theorem SendMessage_accounts (env : Env) (s : WhatsAppMeowService)
    (req : SendMessageRequest) :
    (SendMessage env s req).1.accounts = s.accounts := by
  unfold SendMessage
  cases hg : getAccount env s req.OrganizationID with
  | error e1 => simp
  | ok account =>
    simp only [hg]
    split_ifs with hcn
    · rfl
    · cases hcl : s.client with
      | some c => simpa [hcl] using sendWithClient_accounts env s account req
      | none =>
        simp only [hcl]
        have ht := initializeClient_tables env s account
        cases hi : initializeClient env s account with
        | mk s1 oe =>
          rw [hi] at ht
          cases oe with
          | some e1 => simpa using ht.2
          | none =>
            simp only [hi]
            rw [sendWithClient_accounts env s1 account req]
            exact ht.2

/-- C2 (as stated, refuted): on a connected tenant with a live client an image
send and a text send that the transport rejects both return the error, and the
message table stays empty: no row with `is_sent = false` is written. -/
theorem SendMessage_failed_dispatch_persists_nothing :
    (SendMessage envOk (service [accountRow "CONNECTED" true none] (some client0))
        (request "image")).2
        = .error "failed to send message: image messages not yet implemented" ∧
      (SendMessage envOk (service [accountRow "CONNECTED" true none] (some client0))
        (request "image")).1.messages = [] ∧
      (SendMessage envSendFails (service [accountRow "CONNECTED" true none] (some client0))
        (request "text")).2
        = .error "failed to send message: websocket not connected" ∧
      (SendMessage envSendFails (service [accountRow "CONNECTED" true none] (some client0))
        (request "text")).1.messages = [] := by
  refine ⟨by decide, by decide, by decide, by decide⟩

/-- C2 (amended): on a tenant whose row has `is_connected` set, with a client
to send through and a recipient that parses, a send whose dispatch fails with
error `e` returns to the caller exactly `failed to send message: ` followed by
`e`, and both tables are as before: no message row is written.  The error `e`
of the dispatch is `image messages not yet implemented` for the kind image, the
like message for video, audio and document, and for a text send the error that
the transport client returns. -/
theorem SendMessage_failed_dispatch_keeps_messages (env : Env)
    (s : WhatsAppMeowService) (req : SendMessageRequest) (r : AccountRow) (c : Client)
    (j : JID) (e : String)
    (hq : env.queryErr = none)
    (hr : s.accounts.find? (ofTenant req.OrganizationID) = some r)
    (hc : r.is_connected = true)
    (hcl : sendsThrough env s r c)
    (hj : env.parseJID req.ToJID = .ok j)
    (hd : (req.MessageType = "image" ∧ e = "image messages not yet implemented") ∨
      (req.MessageType = "video" ∧ e = "video messages not yet implemented") ∨
      (req.MessageType = "audio" ∧ e = "audio messages not yet implemented") ∨
      (req.MessageType = "document" ∧ e = "document messages not yet implemented") ∨
      (req.MessageType = "text" ∧ env.send c j req.MessageText = .error e)) :
    (SendMessage env s req).2 = .error ("failed to send message: " ++ e) ∧
      (SendMessage env s req).1.messages = s.messages ∧
      (SendMessage env s req).1.accounts = s.accounts := by
  have key : (SendMessage env s req).2 = .error ("failed to send message: " ++ e) := by
    obtain ⟨s1, heq, hcl1, -, -⟩ := SendMessage_reaches_dispatch env s req r c hq hr hc hcl
    rw [heq]
    unfold sendWithClient
    simp only [hj]
    rcases hd with ⟨hm, rfl⟩ | ⟨hm, rfl⟩ | ⟨hm, rfl⟩ | ⟨hm, rfl⟩ | ⟨ht, he⟩
    · simp [dispatch, hm, sendImageMessage]
    · simp [dispatch, hm, sendVideoMessage]
    · simp [dispatch, hm, sendAudioMessage]
    · simp [dispatch, hm, sendDocumentMessage]
    · simp [dispatch, ht, sendTextMessage, hcl1, he]
  exact ⟨key, SendMessage_error_keeps_messages env s req _ key, SendMessage_accounts env s req⟩

/-- C2, at a video send of a connected tenant whose client is constructed on
demand, and at a text send that the transport rejects with
`websocket not connected`. -/
theorem SendMessage_failed_dispatch_keeps_messages_witness :
    ((SendMessage envOk (service [accountRow "CONNECTED" true none] none)
        (request "video")).2
        = .error ("failed to send message: " ++ "video messages not yet implemented") ∧
      (SendMessage envOk (service [accountRow "CONNECTED" true none] none)
        (request "video")).1.messages
        = (service [accountRow "CONNECTED" true none] none).messages ∧
      (SendMessage envOk (service [accountRow "CONNECTED" true none] none)
        (request "video")).1.accounts
        = (service [accountRow "CONNECTED" true none] none).accounts) ∧
    ((SendMessage envSendFails (service [accountRow "CONNECTED" true none] (some client0))
        (request "text")).2
        = .error ("failed to send message: " ++ "websocket not connected") ∧
      (SendMessage envSendFails (service [accountRow "CONNECTED" true none] (some client0))
        (request "text")).1.messages
        = (service [accountRow "CONNECTED" true none] (some client0)).messages ∧
      (SendMessage envSendFails (service [accountRow "CONNECTED" true none] (some client0))
        (request "text")).1.accounts
        = (service [accountRow "CONNECTED" true none] (some client0)).accounts) :=
  ⟨SendMessage_failed_dispatch_keeps_messages envOk
      (service [accountRow "CONNECTED" true none] none) (request "video")
      (accountRow "CONNECTED" true none) { id := 1, device := "dev1" }
      { User := "1555@proto", Server := "s.whatsapp.net" }
      "video messages not yet implemented"
      rfl (by decide) rfl (Or.inr ⟨rfl, rfl, rfl, rfl, rfl⟩) rfl
      (Or.inr (Or.inl ⟨rfl, rfl⟩)),
    SendMessage_failed_dispatch_keeps_messages envSendFails
      (service [accountRow "CONNECTED" true none] (some client0)) (request "text")
      (accountRow "CONNECTED" true none) client0
      { User := "1555@proto", Server := "s.whatsapp.net" }
      "websocket not connected"
      rfl (by decide) rfl (Or.inl rfl) rfl
      (Or.inr (Or.inr (Or.inr (Or.inr ⟨rfl, rfl⟩))))⟩

/-- C3 (as stated, refuted): when the store rejects the `INSERT`, a text send
that the transport accepted still returns the message identifier without an
error, and no message row is written; the failure is only logged. -/
theorem SendMessage_returns_id_without_row :
    (SendMessage envExecFails (service [accountRow "CONNECTED" true none] (some client0))
        (request "text")).2 = .ok "MSG1" ∧
      (SendMessage envExecFails (service [accountRow "CONNECTED" true none] (some client0))
        (request "text")).1.messages = [] ∧
      (SendMessage envExecFails (service [accountRow "CONNECTED" true none] (some client0))
        (request "text")).1.log = ["Failed to save message: pq: connection refused"] := by
  refine ⟨by decide, by decide, by decide⟩

/-- C3 (amended): on a tenant whose row has `is_connected` set, with a client
to send through and a recipient that parses, a text send that the transport
accepts under identifier `m` returns `m` without error.  When the store
accepts the `INSERT`, exactly one row is appended to the message table: it
carries the id of the account row, the identifier `m`, the recipient, kind and
text of the request as given, and `is_sent = true`.  When the store rejects
the `INSERT`, the message table is as before. -/
theorem SendMessage_text_success (env : Env) (s : WhatsAppMeowService)
    (req : SendMessageRequest) (r : AccountRow) (c : Client) (j : JID) (m : String)
    (hq : env.queryErr = none)
    (hr : s.accounts.find? (ofTenant req.OrganizationID) = some r)
    (hc : r.is_connected = true)
    (hcl : sendsThrough env s r c)
    (hj : env.parseJID req.ToJID = .ok j)
    (ht : req.MessageType = "text")
    (hs : env.send c j req.MessageText = .ok m) :
    (SendMessage env s req).2 = .ok m ∧
      (env.execErr = none →
        (SendMessage env s req).1.messages = s.messages ++
          [{ whats_app_meow_account_id := r.id
             message_id := m
             lead_id := req.LeadID
             from_jid := ""
             to_jid := req.ToJID
             message_type := "text"
             message_text := req.MessageText
             is_sent := true
             timestamp := env.now }]) ∧
      (env.execErr ≠ none → (SendMessage env s req).1.messages = s.messages) := by
  obtain ⟨s1, heq, hcl1, hm, -⟩ := SendMessage_reaches_dispatch env s req r c hq hr hc hcl
  rw [heq]
  unfold sendWithClient
  simp only [hj]
  have hd : dispatch env s1 j req
      = some ({ s1 with transport := s1.transport ++ [.sendMessage c j req.MessageText] },
          .ok m) := by
    simp [dispatch, ht, sendTextMessage, hcl1, hs]
  simp only [hd]
  unfold saveMessage
  cases hx : env.execErr with
  | some e => simp [hm]
  | none => simp [hm, messageRow, scanAccount, ht]

/-- C3, at the scenario of the specification: `hi` to `1555@proto` for `org1`. -/
theorem SendMessage_text_success_witness :
    (SendMessage envOk (service [accountRow "CONNECTED" true none] (some client0))
        (request "text")).2 = .ok "MSG1" ∧
      (SendMessage envOk (service [accountRow "CONNECTED" true none] (some client0))
        (request "text")).1.messages =
          [{ whats_app_meow_account_id := "acc1"
             message_id := "MSG1"
             lead_id := ""
             from_jid := ""
             to_jid := "1555@proto"
             message_type := "text"
             message_text := "hi"
             is_sent := true
             timestamp := 7 }] :=
  have h := SendMessage_text_success envOk
    (service [accountRow "CONNECTED" true none] (some client0)) (request "text")
    (accountRow "CONNECTED" true none) client0
    { User := "1555@proto", Server := "s.whatsapp.net" } "MSG1"
    rfl (by decide) rfl (Or.inl rfl) rfl rfl rfl
  ⟨h.1, h.2.1 rfl⟩

/-- A message type outside the five cases of the `switch` makes `sendWithClient`
return an error. -/
theorem sendWithClient_unsupported (env : Env) (s : WhatsAppMeowService)
    (account : WhatsAppMeowAccount) (req : SendMessageRequest)
    (hk : req.MessageType ∉ ["text", "image", "video", "audio", "document"]) :
    ∃ e, (sendWithClient env s account req).2 = .error e := by
  simp only [List.mem_cons, List.mem_singleton, List.not_mem_nil, or_false, not_or] at hk
  obtain ⟨h1, h2, h3, h4, h5⟩ := hk
  unfold sendWithClient
  cases hj : env.parseJID req.ToJID with
  | error e1 => exact ⟨_, rfl⟩
  | ok j =>
    have hd : dispatch env s j req = none := by simp [dispatch, h1, h2, h3, h4, h5]
    simp only [hj, hd]
    exact ⟨_, rfl⟩

/-- A message type outside the five cases of the `switch` makes `SendMessage`
return an error. -/
theorem SendMessage_unsupported (env : Env) (s : WhatsAppMeowService)
    (req : SendMessageRequest)
    (hk : req.MessageType ∉ ["text", "image", "video", "audio", "document"]) :
    ∃ e, (SendMessage env s req).2 = .error e := by
  unfold SendMessage
  cases hg : getAccount env s req.OrganizationID with
  | error e1 => exact ⟨_, rfl⟩
  | ok account =>
    simp only [hg]
    split_ifs with hcn
    · exact ⟨_, rfl⟩
    · cases hcl : s.client with
      | some c => simpa [hcl] using sendWithClient_unsupported env s account req hk
      | none =>
        simp only [hcl]
        cases hi : initializeClient env s account with
        | mk s1 oe =>
          cases oe with
          | some e1 => exact ⟨_, rfl⟩
          | none => simpa [hi] using sendWithClient_unsupported env s1 account req hk

/-- C4 (as stated, refuted): a request of the unknown kind `sticker` is not
answered with status 400 and not regardless of the account: on a tenant
without a row the handler answers 500 with the error of the account lookup,
and on a connected tenant without a client it answers 500 after a client has
been constructed and stored. -/
theorem Handlers_SendMessage_unknown_kind_is_no_validation_error :
    (Handlers.SendMessage envOk (service [] none) "POST" (.ok (request "sticker"))).2
        = { status := 500
            text := none
            json := some
              { Success := false
                MessageID := ""
                Error := "Failed to send message: failed to get account: sql: no rows in result set" } } ∧
      (Handlers.SendMessage envOk (service [accountRow "CONNECTED" true none] none) "POST"
          (.ok (request "sticker"))).2
        = { status := 500
            text := none
            json := some
              { Success := false
                MessageID := ""
                Error := "Failed to send message: unsupported message type: sticker" } } ∧
      (service [accountRow "CONNECTED" true none] none).client = none ∧
      (Handlers.SendMessage envOk (service [accountRow "CONNECTED" true none] none) "POST"
          (.ok (request "sticker"))).1.client = some { id := 1, device := "dev1" } := by
  refine ⟨by decide, by decide, by decide, by decide⟩

/-- C4 (amended): a posted request with an empty tenant, recipient or kind, or
with a kind that is none of text, image, video, audio, document, is answered
with a failure response and leaves both tables as they were.  When one of the
three fields is empty the status is 400 and the service is not called: the
client field and the transport calls are as before.  Otherwise the kind is
rejected by the service and the status is 500. -/
theorem Handlers_SendMessage_rejects_invalid (env : Env) (s : WhatsAppMeowService)
    (req : SendMessageRequest)
    (h : req.OrganizationID = "" ∨ req.ToJID = "" ∨
      req.MessageType ∉ ["text", "image", "video", "audio", "document"]) :
    (∃ e, (Handlers.SendMessage env s "POST" (.ok req)).2.json
        = some { Success := false, MessageID := "", Error := e }) ∧
      (Handlers.SendMessage env s "POST" (.ok req)).1.messages = s.messages ∧
      (Handlers.SendMessage env s "POST" (.ok req)).1.accounts = s.accounts ∧
      ((req.OrganizationID = "" ∨ req.ToJID = "" ∨ req.MessageType = "") →
        (Handlers.SendMessage env s "POST" (.ok req)).2.status = 400 ∧
        (Handlers.SendMessage env s "POST" (.ok req)).1.client = s.client ∧
        (Handlers.SendMessage env s "POST" (.ok req)).1.transport = s.transport) ∧
      (¬ (req.OrganizationID = "" ∨ req.ToJID = "" ∨ req.MessageType = "") →
        (Handlers.SendMessage env s "POST" (.ok req)).2.status = 500) := by
  by_cases he : req.OrganizationID = "" ∨ req.ToJID = "" ∨ req.MessageType = ""
  · simp [Handlers.SendMessage, he, sendErrorResponse, StatusBadRequest]
  · have hk : req.MessageType ∉ ["text", "image", "video", "audio", "document"] := by
      rcases h with h | h | h
      · exact absurd (Or.inl h) he
      · exact absurd (Or.inr (Or.inl h)) he
      · exact h
    obtain ⟨e, hs⟩ := SendMessage_unsupported env s req hk
    have hm := SendMessage_error_keeps_messages env s req e hs
    have ha := SendMessage_accounts env s req
    cases hp : WhatsMeow.SendMessage env s req with
    | mk s1 res =>
      rw [hp] at hs hm ha
      simp only at hs hm ha
      subst hs
      simp [Handlers.SendMessage, he, hp, sendErrorResponse, StatusInternalServerError, hm, ha]

/-- C4, at a request without a recipient on a connected tenant, and at the
kind `sticker`. -/
theorem Handlers_SendMessage_rejects_invalid_witness :
    (Handlers.SendMessage envOk (service [accountRow "CONNECTED" true none] none) "POST"
        (.ok { request "text" with ToJID := "" })).2.status = 400 ∧
      (Handlers.SendMessage envOk (service [accountRow "CONNECTED" true none] none) "POST"
        (.ok { request "text" with ToJID := "" })).1.client = none ∧
      (Handlers.SendMessage envOk (service [accountRow "CONNECTED" true none] none) "POST"
        (.ok (request "sticker"))).2.status = 500 :=
  have h1 := Handlers_SendMessage_rejects_invalid envOk
    (service [accountRow "CONNECTED" true none] none) { request "text" with ToJID := "" }
    (Or.inr (Or.inl rfl))
  have h2 := Handlers_SendMessage_rejects_invalid envOk
    (service [accountRow "CONNECTED" true none] none) (request "sticker")
    (Or.inr (Or.inr (by decide)))
  ⟨(h1.2.2.2.1 (Or.inr (Or.inl rfl))).1, (h1.2.2.2.1 (Or.inr (Or.inl rfl))).2.1,
    h2.2.2.2.2 (by decide)⟩

/-! ## Connecting and disconnecting -/

/-- A row is selected by the `WHERE` clause exactly when its tenant matches. -/
theorem ofTenant_iff (organizationID : String) (r : AccountRow) :
    ofTenant organizationID r = true ↔ r.organization_id = organizationID := by
  simp [ofTenant]

/-- The `UPDATE` of `Disconnect` only rewrites `updated_at` on a row that is
already `DISCONNECTED` with `is_connected = false`. -/
theorem setDisconnected_of_disconnected (now : Nat) (organizationID : String)
    (r : AccountRow)
    (h : r.organization_id = organizationID →
      r.connection_status = "DISCONNECTED" ∧ r.is_connected = false) :
    setDisconnected now organizationID r = touch now organizationID r := by
  unfold setDisconnected touch
  by_cases ht : ofTenant organizationID r = true
  · obtain ⟨h1, h2⟩ := h ((ofTenant_iff _ _).1 ht)
    cases r
    simp only at h1 h2
    simp [ht, h1, h2]
  · simp [ht]

/-- Method `Disconnect` in one piece, when the store accepts the `UPDATE`: a set
client is disconnected and the field cleared, and the `UPDATE` is applied to
every row. -/
theorem Disconnect_eq (env : Env) (s : WhatsAppMeowService) (organizationID : String)
    (hx : env.execErr = none) :
    Disconnect env s organizationID
      = ({ s with
            client := none
            transport := s.transport ++
              (match s.client with
               | some c => [.disconnect c]
               | none => [])
            accounts := s.accounts.map (setDisconnected env.now organizationID) }, none) := by
  unfold Disconnect
  cases s with
  | mk u a m c n t l =>
    cases c <;> simp [hx]

/-- C5: with the store accepting the `UPDATE`, `Disconnect` returns no error
whether or not a client is set, and afterwards the client field is nil and
every row of the tenant is `DISCONNECTED` with `is_connected = false`.  The
account table keeps its length, and without a row of the tenant it is
unchanged.  When the rows of the tenant are already `DISCONNECTED` with
`is_connected = false`, the table is rewritten in `updated_at` only; so a second
`Disconnect` succeeds again, makes no transport call and changes nothing
but `updated_at`. -/
theorem Disconnect_idempotent (env env2 : Env) (s : WhatsAppMeowService)
    (organizationID : String) (hx : env.execErr = none) (hx2 : env2.execErr = none) :
    (Disconnect env s organizationID).2 = none ∧
      (Disconnect env s organizationID).1.client = none ∧
      (∀ r ∈ (Disconnect env s organizationID).1.accounts,
        r.organization_id = organizationID →
          r.connection_status = "DISCONNECTED" ∧ r.is_connected = false) ∧
      (Disconnect env s organizationID).1.accounts.length = s.accounts.length ∧
      (s.accounts.find? (ofTenant organizationID) = none →
        (Disconnect env s organizationID).1.accounts = s.accounts) ∧
      ((∀ r ∈ s.accounts, r.organization_id = organizationID →
          r.connection_status = "DISCONNECTED" ∧ r.is_connected = false) →
        (Disconnect env s organizationID).1.accounts
          = s.accounts.map (touch env.now organizationID)) ∧
      (Disconnect env2 (Disconnect env s organizationID).1 organizationID)
        = ({ (Disconnect env s organizationID).1 with
              accounts := (Disconnect env s organizationID).1.accounts.map
                (touch env2.now organizationID) }, none) := by
  have hacc : (Disconnect env s organizationID).1.accounts
      = s.accounts.map (setDisconnected env.now organizationID) := by
    rw [Disconnect_eq env s organizationID hx]
  have hcl : (Disconnect env s organizationID).1.client = none := by
    rw [Disconnect_eq env s organizationID hx]
  have hpost : ∀ r ∈ (Disconnect env s organizationID).1.accounts,
      r.organization_id = organizationID →
        r.connection_status = "DISCONNECTED" ∧ r.is_connected = false := by
    intro r hr ho
    rw [hacc, List.mem_map] at hr
    obtain ⟨r0, -, rfl⟩ := hr
    unfold setDisconnected at ho ⊢
    by_cases ht : ofTenant organizationID r0 = true
    · simp [ht]
    · rw [if_neg ht] at ho
      exact absurd ((ofTenant_iff _ _).2 ho) ht
  refine ⟨?_, hcl, hpost, ?_, ?_, ?_, ?_⟩
  · rw [Disconnect_eq env s organizationID hx]
  · rw [hacc, List.length_map]
  · intro hn
    rw [hacc]
    rw [List.find?_eq_none] at hn
    conv_rhs => rw [← List.map_id s.accounts]
    apply List.map_congr_left
    intro r hr
    have := hn r hr
    simp [setDisconnected, this]
  · intro hall
    rw [hacc]
    apply List.map_congr_left
    intro r hr
    exact setDisconnected_of_disconnected _ _ r (hall r hr)
  · have h2 : (Disconnect env s organizationID).1.accounts.map
          (setDisconnected env2.now organizationID)
        = (Disconnect env s organizationID).1.accounts.map
          (touch env2.now organizationID) := by
      apply List.map_congr_left
      intro r hr
      exact setDisconnected_of_disconnected _ _ r (hpost r hr)
    generalize (Disconnect env s organizationID).1 = s1 at hcl h2 ⊢
    rw [Disconnect_eq env2 s1 organizationID hx2, h2]
    cases s1
    simp only at hcl
    subst hcl
    simp

/-- C5, at a connected tenant with a live client: the first `Disconnect`
tears the client down and rewrites the row, the second changes the timestamp
only. -/
theorem Disconnect_idempotent_witness :
    (Disconnect envOk (service [accountRow "CONNECTED" true none] (some client0)) "org1")
        = ({ service [{ accountRow "DISCONNECTED" false none with updated_at := 7 }] none with
              transport := [.disconnect client0] }, none) ∧
      (Disconnect envLater
          (Disconnect envOk (service [accountRow "CONNECTED" true none] (some client0))
            "org1").1 "org1")
        = ({ service [{ accountRow "DISCONNECTED" false none with updated_at := 9 }] none with
              transport := [.disconnect client0] }, none) :=
  have h := Disconnect_idempotent envOk envLater
    (service [accountRow "CONNECTED" true none] (some client0)) "org1" rfl rfl
  ⟨by decide, h.2.2.2.2.2.2.trans (by decide)⟩

/-- The `UPDATE` of `Connect` keeps the tenant of a row. -/
theorem ofTenant_setConnecting (now : Nat) (organizationID org : String) (r : AccountRow) :
    ofTenant org (setConnecting now organizationID r) = ofTenant org r := by
  unfold setConnecting
  split_ifs <;> simp [ofTenant]

/-- The row that `getAccount` reads after the `UPDATE` of `Connect` is the row
it read before, updated. -/
theorem find?_setConnecting (now : Nat) (organizationID : String) (l : List AccountRow) :
    (l.map (setConnecting now organizationID)).find? (ofTenant organizationID)
      = (l.find? (ofTenant organizationID)).map (setConnecting now organizationID) := by
  rw [List.find?_map]
  congr 1
  apply congrArg (fun p => List.find? p l)
  funext r
  exact ofTenant_setConnecting now organizationID organizationID r

/-- Method `Connect` in one piece, when the tenant has a row and the store and the
transport library accept every step. -/
theorem Connect_eq (env : Env) (s : WhatsAppMeowService) (organizationID deviceID : String)
    (r : AccountRow)
    (hx : env.execErr = none) (hq : env.queryErr = none)
    (hr : s.accounts.find? (ofTenant organizationID) = some r)
    (h1 : env.storeErr = none) (h2 : env.deviceErr r.device_id = none)
    (h3 : env.connectErr = none) :
    Connect env s organizationID deviceID
      = ({ s with
            accounts := s.accounts.map (setConnecting env.now organizationID)
            client := some { id := s.clients, device := r.device_id }
            clients := s.clients + 1
            transport := s.transport ++
              constructionCalls s.databaseURL { id := s.clients, device := r.device_id } },
          none) := by
  have hd : (setConnecting env.now organizationID r).device_id = r.device_id := by
    unfold setConnecting
    split_ifs <;> rfl
  unfold Connect getAccount
  simp only [hx, hq, find?_setConnecting, hr, Option.map_some']
  simp [initializeClient, scanAccount, hd, h1, h2, h3, constructionCalls]

/-- C6 (as stated, refuted): on a tenant in state `CONNECTED` whose client is
live, `Connect` rewrites the state to `CONNECTING`, constructs a second
client and stores it in place of the live one, which is not disconnected. -/
theorem Connect_constructs_again :
    (service [accountRow "CONNECTED" true none] (some client0)).client = some client0 ∧
      (Connect envOk (service [accountRow "CONNECTED" true none] (some client0))
        "org1" "dev1").2 = none ∧
      (Connect envOk (service [accountRow "CONNECTED" true none] (some client0))
        "org1" "dev1").1.client = some { id := 1, device := "dev1" } ∧
      (Connect envOk (service [accountRow "CONNECTED" true none] (some client0))
        "org1" "dev1").1.transport
        = [.sqlstoreNew "postgres://localhost:5432/skyfunnel", .getDevice "dev1",
            .newClient { id := 1, device := "dev1" },
            .addEventHandler { id := 1, device := "dev1" },
            .connect { id := 1, device := "dev1" }] ∧
      (Connect envOk (service [accountRow "CONNECTED" true none] (some client0))
        "org1" "dev1").1.accounts.map (fun r => r.connection_status) = ["CONNECTING"] := by
  refine ⟨by decide, by decide, by decide, by decide, by decide⟩

/-- C6 (amended): `Connect` does not look at the client field.  On a tenant
with a row, whatever its state and whether or not a client is live, a
`Connect` that the store and the transport library accept writes `CONNECTING`
to every row of the tenant, constructs exactly one new client, from the device
of the row, and stores it in the client field; a client that was live before
is a different one and receives no call. -/
theorem Connect_always_constructs (env : Env) (s : WhatsAppMeowService)
    (organizationID deviceID : String) (r : AccountRow)
    (hx : env.execErr = none) (hq : env.queryErr = none)
    (hr : s.accounts.find? (ofTenant organizationID) = some r)
    (h1 : env.storeErr = none) (h2 : env.deviceErr r.device_id = none)
    (h3 : env.connectErr = none) :
    (Connect env s organizationID deviceID).2 = none ∧
      (Connect env s organizationID deviceID).1.client
        = some { id := s.clients, device := r.device_id } ∧
      (Connect env s organizationID deviceID).1.clients = s.clients + 1 ∧
      (Connect env s organizationID deviceID).1.transport
        = s.transport ++
            constructionCalls s.databaseURL { id := s.clients, device := r.device_id } ∧
      ((Connect env s organizationID deviceID).1.transport.filter
          TransportCall.isNewClient).length
        = (s.transport.filter TransportCall.isNewClient).length + 1 ∧
      (∀ c0, s.client = some c0 → c0.id < s.clients →
        (Connect env s organizationID deviceID).1.client ≠ some c0) ∧
      (∀ r1 ∈ (Connect env s organizationID deviceID).1.accounts,
        r1.organization_id = organizationID → r1.connection_status = "CONNECTING") := by
  rw [Connect_eq env s organizationID deviceID r hx hq hr h1 h2 h3]
  refine ⟨rfl, rfl, rfl, rfl, ?_, ?_, ?_⟩
  · simp [constructionCalls, TransportCall.isNewClient, List.filter]
  · intro c0 _ hlt heq
    simp only [Option.some.injEq] at heq
    rw [← heq] at hlt
    exact Nat.lt_irrefl _ hlt
  · intro r1 hr1 ho
    simp only [List.mem_map] at hr1
    obtain ⟨r0, -, rfl⟩ := hr1
    unfold setConnecting at ho ⊢
    by_cases ht : ofTenant organizationID r0 = true
    · simp [ht]
    · rw [if_neg ht] at ho
      exact absurd ((ofTenant_iff _ _).2 ho) ht

/-- C6, at a tenant in state `PAIRING` with a live client. -/
theorem Connect_always_constructs_witness :
    (Connect envOk (service [accountRow "PAIRING" false (some "ABC123")] (some client0))
        "org1" "dev1").1.client = some { id := 1, device := "dev1" } ∧
      (Connect envOk (service [accountRow "PAIRING" false (some "ABC123")] (some client0))
        "org1" "dev1").1.clients = 2 :=
  have h := Connect_always_constructs envOk
    (service [accountRow "PAIRING" false (some "ABC123")] (some client0)) "org1" "dev1"
    (accountRow "PAIRING" false (some "ABC123")) rfl rfl (by decide) rfl rfl rfl
  ⟨h.2.1, h.2.2.1⟩

/-- C7 (as stated, refuted): on a tenant without a row, `Connect` returns the
error of the account lookup, the account table stays empty, and no client is
constructed. -/
theorem Connect_creates_no_row :
    (Connect envOk (service [] none) "org1" "dev1").2 = some "sql: no rows in result set" ∧
      (Connect envOk (service [] none) "org1" "dev1").1.accounts = [] ∧
      (Connect envOk (service [] none) "org1" "dev1").1.client = none ∧
      (Connect envOk (service [] none) "org1" "dev1").1.transport = [] := by
  refine ⟨by decide, by decide, by decide, by decide⟩

/-- C7 (amended): `Connect` never inserts a row.  On a tenant that has a row,
in state `DISCONNECTED` or any other, a `Connect` that the store and the
transport library accept returns no error, leaves the tenant with as many
rows as before, all in state `CONNECTING`, and with a client constructed from
the device of the row in the client field.  On a tenant without a row, with
the store accepting the statements, `Connect` returns the missing row error
of the lookup and the service value is as before. -/
theorem Connect_needs_existing_row (env : Env) (s : WhatsAppMeowService)
    (organizationID deviceID : String)
    (hx : env.execErr = none) (hq : env.queryErr = none)
    (h1 : env.storeErr = none) (h2 : ∀ d, env.deviceErr d = none)
    (h3 : env.connectErr = none) :
    (∀ r, s.accounts.find? (ofTenant organizationID) = some r →
      (Connect env s organizationID deviceID).2 = none ∧
      ((Connect env s organizationID deviceID).1.accounts.filter
          (ofTenant organizationID)).length
        = (s.accounts.filter (ofTenant organizationID)).length ∧
      (Connect env s organizationID deviceID).1.accounts.length = s.accounts.length ∧
      (∀ r1 ∈ (Connect env s organizationID deviceID).1.accounts,
        r1.organization_id = organizationID → r1.connection_status = "CONNECTING") ∧
      (Connect env s organizationID deviceID).1.client
        = some { id := s.clients, device := r.device_id }) ∧
    (s.accounts.find? (ofTenant organizationID) = none →
      Connect env s organizationID deviceID = (s, some ErrNoRows)) := by
  constructor
  · intro r hr
    rw [Connect_eq env s organizationID deviceID r hx hq hr h1 (h2 _) h3]
    refine ⟨rfl, ?_, by simp, ?_, rfl⟩
    · simp only [List.filter_map, List.length_map]
      congr 1
      apply congrArg (fun p => List.filter p s.accounts)
      funext r0
      exact ofTenant_setConnecting env.now organizationID organizationID r0
    · intro r1 hr1 ho
      simp only [List.mem_map] at hr1
      obtain ⟨r0, -, rfl⟩ := hr1
      unfold setConnecting at ho ⊢
      by_cases ht : ofTenant organizationID r0 = true
      · simp [ht]
      · rw [if_neg ht] at ho
        exact absurd ((ofTenant_iff _ _).2 ho) ht
  · intro hn
    have hmap : s.accounts.map (setConnecting env.now organizationID) = s.accounts := by
      rw [List.find?_eq_none] at hn
      conv_rhs => rw [← List.map_id s.accounts]
      apply List.map_congr_left
      intro r hr
      have := hn r hr
      simp [setConnecting, this]
    unfold Connect getAccount
    simp [hx, hq, hmap, hn]

/-- C7, at a tenant in state `DISCONNECTED` without a client. -/
theorem Connect_needs_existing_row_witness :
    (Connect envOk (service [accountRow "DISCONNECTED" false none] none) "org1" "dev1")
      = ({ service [{ accountRow "CONNECTING" false none with updated_at := 7 }]
              (some { id := 1, device := "dev1" }) with
            clients := 2
            transport := constructionCalls "postgres://localhost:5432/skyfunnel"
              { id := 1, device := "dev1" } }, none) ∧
      (Connect envOk (service [accountRow "DISCONNECTED" false none] none)
        "org1" "dev1").1.client = some { id := 1, device := "dev1" } :=
  have h := (Connect_needs_existing_row envOk
    (service [accountRow "DISCONNECTED" false none] none) "org1" "dev1"
    rfl rfl rfl (fun _ => rfl) rfl).1 (accountRow "DISCONNECTED" false none) (by decide)
  ⟨by decide, h.2.2.2.2⟩

/-! ## Pairing code and events -/

/-- C8 (as stated, refuted): `GetQRCode` does not look at the connection
state.  A pairing code stored on a `DISCONNECTED` or `CONNECTED` row is
returned, and a row in state `PAIRING` without a stored code yields
`QR code not available`. -/
theorem GetQRCode_ignores_state :
    (GetQRCode envOk (service [accountRow "DISCONNECTED" false (some "ABC123")] none)
        "org1").2 = .ok "ABC123" ∧
      (GetQRCode envOk (service [accountRow "CONNECTED" true (some "ABC123")] (some client0))
        "org1").2 = .ok "ABC123" ∧
      (GetQRCode envOk (service [accountRow "PAIRING" false none] (some client0))
        "org1").2 = .error "QR code not available" := by
  refine ⟨by decide, by decide, by decide⟩

/-- C8 (amended): `GetQRCode` returns a code `c` exactly when the account
lookup succeeds and the row it reads has `c` stored in `qr_code`, whatever the
connection state of that row; with a row whose `qr_code` is null it fails with
`QR code not available`, without a row with the error of the lookup; and the
service value, both tables included, is as before. -/
theorem GetQRCode_returns_stored_code (env : Env) (s : WhatsAppMeowService)
    (organizationID : String) :
    (GetQRCode env s organizationID).1 = s ∧
      (∀ c, (GetQRCode env s organizationID).2 = .ok c ↔
        (env.queryErr = none ∧
          ∃ r, s.accounts.find? (ofTenant organizationID) = some r ∧ r.qr_code = some c)) ∧
      (∀ r, env.queryErr = none →
        s.accounts.find? (ofTenant organizationID) = some r → r.qr_code = none →
        (GetQRCode env s organizationID).2 = .error "QR code not available") ∧
      (env.queryErr = none → s.accounts.find? (ofTenant organizationID) = none →
        (GetQRCode env s organizationID).2 = .error ErrNoRows) := by
  unfold GetQRCode getAccount
  cases hq : env.queryErr with
  | some e => simp
  | none =>
    cases hf : s.accounts.find? (ofTenant organizationID) with
    | none => simp
    | some r =>
      cases hc : r.qr_code with
      | none => simp [scanAccount, hc]
      | some c0 => simp [scanAccount, hc]

/-- C9 (the code at the failing input): on a tenant in state `CONNECTING`
without a stored code, the event handler answers a QR event carrying `ABC123`
with a log line only.  The row is as before, still `CONNECTING` and without a
code, and `GetQRCode` fails with `QR code not available`; a following
`Connected` event again changes no row, so the state never becomes
`CONNECTED`. -/
theorem eventHandler_does_not_persist_pairing :
    (eventHandler (service [accountRow "CONNECTING" false none] (some client0))
        (.QR ["ABC123"])).accounts = [accountRow "CONNECTING" false none] ∧
      (eventHandler (service [accountRow "CONNECTING" false none] (some client0))
        (.QR ["ABC123"])).log = ["QR code received"] ∧
      (GetQRCode envOk
        (eventHandler (service [accountRow "CONNECTING" false none] (some client0))
          (.QR ["ABC123"])) "org1").2 = .error "QR code not available" ∧
      (eventHandler
        (eventHandler (service [accountRow "CONNECTING" false none] (some client0))
          (.QR ["ABC123"])) .Connected).accounts = [accountRow "CONNECTING" false none] := by
  refine ⟨by decide, by decide, by decide, by decide⟩

/-- C10: for every service value and every event, of one of the five kinds
with a case in the type switch or of any other kind, the event handler is
total and leaves the account table, the message table, the client field and
the record of transport calls as they were; so it does for every pair of a
state and an event outside the transition table.  An event of another kind
leaves the whole service value as it was. -/
theorem eventHandler_frame (s : WhatsAppMeowService) (evt : Event) :
    (eventHandler s evt).accounts = s.accounts ∧
      (eventHandler s evt).messages = s.messages ∧
      (eventHandler s evt).client = s.client ∧
      (eventHandler s evt).transport = s.transport ∧
      (∀ kind, evt = .Other kind → eventHandler s evt = s) := by
  cases evt <;>
    simp [eventHandler, handleIncomingMessage, handleConnected, handleDisconnected,
      handleLoggedOut, handleQRCode]

/-! ## One client for all tenants -/

/-- The dispatch on the message type leaves the count of constructed clients
alone. -/
theorem dispatch_clients (env : Env) (s s1 : WhatsAppMeowService) (toJID : JID)
    (req : SendMessageRequest) (res : Except String String)
    (h : dispatch env s toJID req = some (s1, res)) :
    s1.clients = s.clients := by
  unfold dispatch at h
  split_ifs at h
  · unfold sendTextMessage at h
    cases hc : s.client with
    | none => simp [hc] at h; obtain ⟨h1, -⟩ := h; subst h1; rfl
    | some c => simp [hc] at h; obtain ⟨h1, -⟩ := h; subst h1; rfl
  all_goals
    simp at h
    obtain ⟨h1, -⟩ := h
    subst h1
    rfl

/-- The function `sendWithClient` leaves the client field and the count of
constructed clients alone. -/
theorem sendWithClient_client (env : Env) (s : WhatsAppMeowService)
    (account : WhatsAppMeowAccount) (req : SendMessageRequest) :
    (sendWithClient env s account req).1.client = s.client ∧
      (sendWithClient env s account req).1.clients = s.clients := by
  unfold sendWithClient
  cases hj : env.parseJID req.ToJID with
  | error e1 => simp
  | ok j =>
    simp only [hj]
    cases hd : dispatch env s j req with
    | none => simp [hd]
    | some p =>
      obtain ⟨s1, res⟩ := p
      have hf := dispatch_frame env s s1 j req res hd
      have hn := dispatch_clients env s s1 j req res hd
      cases res with
      | error e1 => simpa [hd] using ⟨hf.2.2, hn⟩
      | ok m =>
        simp only [hd]
        unfold saveMessage
        cases hx : env.execErr <;> simpa [hx] using ⟨hf.2.2, hn⟩

/-- C11 (as stated, refuted): with `orgA` and `orgB` both `CONNECTED`, a
first send of `orgA` constructs a client from `devA`.  The following text send
of `orgB` is handed to that very client: no client is constructed from `devB`,
and the message is recorded under the account of `orgB`. -/
theorem SendMessage_goes_through_other_tenants_client :
    afterSendA.client = some { id := 1, device := "devA" } ∧
      afterSendA.accounts.map (fun r => (r.organization_id, r.connection_status))
        = [("orgA", "CONNECTED"), ("orgB", "CONNECTED")] ∧
      (SendMessage envOk afterSendA (requestOf "orgB")).2 = .ok "MSG1" ∧
      (SendMessage envOk afterSendA (requestOf "orgB")).1.transport
        = afterSendA.transport ++
            [.sendMessage { id := 1, device := "devA" }
              { User := "1555@proto", Server := "s.whatsapp.net" } "hi"] ∧
      (SendMessage envOk afterSendA (requestOf "orgB")).1.client
        = some { id := 1, device := "devA" } ∧
      (SendMessage envOk afterSendA (requestOf "orgB")).1.messages.map
          (fun m => m.whats_app_meow_account_id) = ["acc-orgA", "acc-orgB"] := by
  refine ⟨by decide, by decide, by decide, by decide, by decide, by decide⟩

/-- C11 (amended): the service has one client field for all tenants.  A text
send of a tenant whose row has `is_connected` set and whose recipient parses
is handed to the client in that field when one is set, whichever device it was
constructed from, and the field is kept.  Only when the field is nil is a
client constructed, from the device of the row of the sending tenant, and the
send handed to it. -/
theorem SendMessage_uses_the_one_client (env : Env) (s : WhatsAppMeowService)
    (req : SendMessageRequest) (r : AccountRow) (j : JID)
    (hq : env.queryErr = none)
    (hr : s.accounts.find? (ofTenant req.OrganizationID) = some r)
    (hc : r.is_connected = true)
    (hj : env.parseJID req.ToJID = .ok j)
    (ht : req.MessageType = "text") :
    (∀ c, s.client = some c →
      (SendMessage env s req).1.transport
        = s.transport ++ [.sendMessage c j req.MessageText] ∧
      (SendMessage env s req).1.client = some c) ∧
    (s.client = none → env.storeErr = none → env.deviceErr r.device_id = none →
      env.connectErr = none →
      (SendMessage env s req).1.transport
        = s.transport ++
            constructionCalls s.databaseURL { id := s.clients, device := r.device_id } ++
            [.sendMessage { id := s.clients, device := r.device_id } j req.MessageText] ∧
      (SendMessage env s req).1.client
        = some { id := s.clients, device := r.device_id }) := by
  constructor
  · intro c hcl
    unfold SendMessage getAccount sendWithClient
    simp only [hq, hr, scanAccount, hc, hcl, hj]
    have hd : dispatch env s j req
        = some ({ s with transport := s.transport ++ [.sendMessage c j req.MessageText] },
            env.send c j req.MessageText) := by
      simp [dispatch, ht, sendTextMessage, hcl]
    simp only [hd]
    unfold saveMessage
    cases env.send c j req.MessageText <;> cases env.execErr <;> simp [hcl]
  · intro hn h1 h2 h3
    unfold SendMessage getAccount
    simp only [hq, hr, scanAccount, hc, hn, initializeClient, h1, h2, h3]
    unfold sendWithClient
    simp only [hj]
    simp only [dispatch, ht, sendTextMessage]
    unfold saveMessage
    cases env.send { id := s.clients, device := r.device_id } j req.MessageText <;>
      cases env.execErr <;> simp [constructionCalls]

/-- C11, at the second send of `orgB` after `orgA` has constructed the
client. -/
theorem SendMessage_uses_the_one_client_witness :
    (SendMessage envOk afterSendA (requestOf "orgB")).1.transport
        = afterSendA.transport ++
            [.sendMessage { id := 1, device := "devA" }
              { User := "1555@proto", Server := "s.whatsapp.net" } (requestOf "orgB").MessageText] ∧
      (SendMessage envOk afterSendA (requestOf "orgB")).1.client
        = some { id := 1, device := "devA" } :=
  (SendMessage_uses_the_one_client envOk afterSendA (requestOf "orgB")
    (tenantRow "orgB" "devB") { User := "1555@proto", Server := "s.whatsapp.net" }
    rfl (by decide) rfl rfl rfl).1 { id := 1, device := "devA" } (by decide)

/-- The `UPDATE` of `Disconnect` for one tenant leaves the rows of every other
tenant in place: the rows selected for the other tenant are the same. -/
theorem filter_setDisconnected (now : Nat) (a b : String) (hab : a ≠ b)
    (l : List AccountRow) :
    (l.map (setDisconnected now a)).filter (ofTenant b) = l.filter (ofTenant b) := by
  induction l with
  | nil => rfl
  | cons r t ih =>
    have hrow : ofTenant b r = true → setDisconnected now a r = r := by
      intro hb
      have h1 : r.organization_id = b := (ofTenant_iff b r).1 hb
      have h2 : ofTenant a r = false := by
        cases h : ofTenant a r with
        | false => rfl
        | true => exact absurd (((ofTenant_iff a r).1 h).symm.trans h1) hab
      simp [setDisconnected, h2]
    have hten : ofTenant b (setDisconnected now a r) = ofTenant b r := by
      unfold setDisconnected
      split_ifs <;> simp [ofTenant]
    simp only [List.map_cons, List.filter_cons, hten, ih]
    cases hb : ofTenant b r with
    | false => simp
    | true => simp [hrow hb]

/-- The row that `getAccount` reads for another tenant is the same after the
`UPDATE` of `Disconnect`. -/
theorem find?_setDisconnected (now : Nat) (a b : String) (hab : a ≠ b)
    (l : List AccountRow) :
    (l.map (setDisconnected now a)).find? (ofTenant b) = l.find? (ofTenant b) := by
  induction l with
  | nil => rfl
  | cons r t ih =>
    have hten : ofTenant b (setDisconnected now a r) = ofTenant b r := by
      unfold setDisconnected
      split_ifs <;> simp [ofTenant]
    simp only [List.map_cons, List.find?_cons, hten, ih]
    cases hb : ofTenant b r with
    | false => rfl
    | true =>
      have h1 : r.organization_id = b := (ofTenant_iff b r).1 hb
      have h2 : ofTenant a r = false := by
        cases h : ofTenant a r with
        | false => rfl
        | true => exact absurd (((ofTenant_iff a r).1 h).symm.trans h1) hab
      simp [setDisconnected, h2]

/-- C12 (as stated, refuted): the client that is live was constructed by a send
of `orgB` from `devB`.  `Disconnect` for `orgA` disconnects that client and
clears the client field, while the row of `orgB` still says `CONNECTED`. -/
theorem Disconnect_tears_down_other_tenants_client :
    afterSendB.client = some { id := 1, device := "devB" } ∧
      (Disconnect envOk afterSendB "orgA").2 = none ∧
      (Disconnect envOk afterSendB "orgA").1.client = none ∧
      (Disconnect envOk afterSendB "orgA").1.transport
        = afterSendB.transport ++ [.disconnect { id := 1, device := "devB" }] ∧
      (Disconnect envOk afterSendB "orgA").1.accounts.map
          (fun r => (r.organization_id, r.connection_status, r.is_connected))
        = [("orgA", "DISCONNECTED", false), ("orgB", "CONNECTED", true)] := by
  refine ⟨by decide, by decide, by decide, by decide, by decide⟩

/-- C12 (amended): for two distinct tenants A and B, `Disconnect` for A leaves
the account rows of B as they were, so `getAccount` reads the same account
for B.  The client field is shared by all tenants: whichever tenant the
client in it was constructed for, `Disconnect` for A disconnects it and leaves
the field nil. -/
theorem Disconnect_frame_other_tenant (env : Env) (s : WhatsAppMeowService)
    (a b : String) (hab : a ≠ b) :
    (Disconnect env s a).1.accounts.filter (ofTenant b) = s.accounts.filter (ofTenant b) ∧
      (Disconnect env s a).1.accounts.length = s.accounts.length ∧
      (∀ env2, getAccount env2 (Disconnect env s a).1 b = getAccount env2 s b) ∧
      (Disconnect env s a).1.client = none ∧
      (∀ c, s.client = some c →
        (Disconnect env s a).1.transport = s.transport ++ [.disconnect c]) := by
  have hacc : (Disconnect env s a).1.accounts = s.accounts ∨
      (Disconnect env s a).1.accounts = s.accounts.map (setDisconnected env.now a) := by
    unfold Disconnect
    cases s.client <;> cases env.execErr <;> simp
  have hfind : (Disconnect env s a).1.accounts.find? (ofTenant b)
      = s.accounts.find? (ofTenant b) := by
    rcases hacc with h | h
    · rw [h]
    · rw [h, find?_setDisconnected env.now a b hab]
  refine ⟨?_, ?_, ?_, ?_, ?_⟩
  · rcases hacc with h | h
    · rw [h]
    · rw [h, filter_setDisconnected env.now a b hab]
  · rcases hacc with h | h
    · rw [h]
    · rw [h, List.length_map]
  · intro env2
    unfold getAccount
    rw [hfind]
  · unfold Disconnect
    cases hc : s.client <;> cases env.execErr <;> simp [hc]
  · intro c hc
    unfold Disconnect
    cases env.execErr <;> simp [hc]

/-- C12, at `Disconnect` for `orgA` while the client of `orgB` is live. -/
theorem Disconnect_frame_other_tenant_witness :
    (Disconnect envOk afterSendB "orgA").1.accounts.filter (ofTenant "orgB")
        = afterSendB.accounts.filter (ofTenant "orgB") ∧
      (Disconnect envOk afterSendB "orgA").1.client = none :=
  have h := Disconnect_frame_other_tenant envOk afterSendB "orgA" "orgB" (by decide)
  ⟨h.1, h.2.2.2.1⟩

/-- C13 (as stated, refuted): on a tenant whose row has `is_connected` set
while the client field is nil, a text send does not fail.  It constructs a
client from the device of the row, stores it in the client field, sends
through it and returns the message identifier. -/
theorem SendMessage_constructs_on_demand :
    (service [accountRow "CONNECTED" true none] none).client = none ∧
      (SendMessage envOk (service [accountRow "CONNECTED" true none] none)
        (request "text")).2 = .ok "MSG1" ∧
      (SendMessage envOk (service [accountRow "CONNECTED" true none] none)
        (request "text")).1.client = some { id := 1, device := "dev1" } ∧
      (SendMessage envOk (service [accountRow "CONNECTED" true none] none)
        (request "text")).1.clients = 2 ∧
      (SendMessage envOk (service [accountRow "CONNECTED" true none] none)
        (request "text")).1.transport
        = constructionCalls "postgres://localhost:5432/skyfunnel" { id := 1, device := "dev1" } ++
            [.sendMessage { id := 1, device := "dev1" }
              { User := "1555@proto", Server := "s.whatsapp.net" } "hi"] := by
  refine ⟨by decide, by decide, by decide, by decide, by decide⟩

/-- Method `initializeClient` either leaves the client field as it was, or
stores the client it has just constructed from the device of the account. -/
theorem initializeClient_client (env : Env) (s : WhatsAppMeowService)
    (account : WhatsAppMeowAccount) :
    ((initializeClient env s account).1.client = s.client ∧
        (initializeClient env s account).2 ≠ none) ∨
      ((initializeClient env s account).1.client
          = some { id := s.clients, device := account.DeviceID } ∧
        (initializeClient env s account).1.clients = s.clients + 1 ∧
        (initializeClient env s account).2 = none) := by
  unfold initializeClient
  cases env.storeErr <;> cases env.deviceErr account.DeviceID <;>
    cases env.connectErr <;> simp

/-- The dispatch on the message type only appends to the record of transport
calls. -/
theorem dispatch_transport (env : Env) (s s1 : WhatsAppMeowService) (toJID : JID)
    (req : SendMessageRequest) (res : Except String String)
    (h : dispatch env s toJID req = some (s1, res)) :
    ∃ rest, s1.transport = s.transport ++ rest := by
  unfold dispatch at h
  split_ifs at h
  · unfold sendTextMessage at h
    cases hc : s.client with
    | none => simp [hc] at h; obtain ⟨h1, -⟩ := h; subst h1; exact ⟨[], by simp⟩
    | some c => simp [hc] at h; obtain ⟨h1, -⟩ := h; subst h1; exact ⟨_, rfl⟩
  all_goals
    simp at h
    obtain ⟨h1, -⟩ := h
    subst h1
    exact ⟨[], by simp⟩

/-- The function `sendWithClient` only appends to the record of transport
calls. -/
theorem sendWithClient_transport (env : Env) (s : WhatsAppMeowService)
    (account : WhatsAppMeowAccount) (req : SendMessageRequest) :
    ∃ rest, (sendWithClient env s account req).1.transport = s.transport ++ rest := by
  unfold sendWithClient
  cases hj : env.parseJID req.ToJID with
  | error e1 => exact ⟨[], by simp⟩
  | ok j =>
    simp only [hj]
    cases hd : dispatch env s j req with
    | none => exact ⟨[], by simp⟩
    | some p =>
      obtain ⟨s1, res⟩ := p
      obtain ⟨rest, hrest⟩ := dispatch_transport env s s1 j req res hd
      cases res with
      | error e1 => exact ⟨rest, by simpa using hrest⟩
      | ok m =>
        simp only []
        unfold saveMessage
        cases hx : env.execErr <;> exact ⟨rest, by simpa using hrest⟩

/-- C13 (amended): `SendMessage` constructs a client on demand.

* With a client in the client field, the field and the count of constructed
  clients are as before.
* Without an account row, or with a row whose `is_connected` is false,
  `SendMessage` fails, nothing is constructed and no transport call is made.
* With a row whose `is_connected` is set and a nil client field, `SendMessage`
  calls `initializeClient`.  When the transport library accepts every step, the
  calls of the construction are made and the client constructed from the device
  of that row is in the client field afterwards, whatever becomes of the rest
  of the send; for a text request whose recipient parses, the text is handed
  to that new client, and the result is the identifier the transport gives, or
  its error after `failed to send message: `.
* When a step of the construction fails with error `e`, `SendMessage` fails
  with `failed to initialize client: ` followed by `e`, the client field stays
  nil and the message table is as before.
* In every case the field afterwards is the one before or, starting from nil,
  a client constructed by this call. -/
theorem SendMessage_constructs_only_when_nil (env : Env) (s : WhatsAppMeowService)
    (req : SendMessageRequest) :
    (∀ c, s.client = some c →
      (SendMessage env s req).1.client = some c ∧
      (SendMessage env s req).1.clients = s.clients) ∧
    ((∀ r, s.accounts.find? (ofTenant req.OrganizationID) = some r →
        r.is_connected = false) →
      (∃ e, (SendMessage env s req).2 = .error e) ∧
      (SendMessage env s req).1.client = s.client ∧
      (SendMessage env s req).1.clients = s.clients ∧
      (SendMessage env s req).1.transport = s.transport) ∧
    (∀ r, env.queryErr = none →
      s.accounts.find? (ofTenant req.OrganizationID) = some r →
      r.is_connected = true → s.client = none →
      env.storeErr = none → env.deviceErr r.device_id = none → env.connectErr = none →
      (SendMessage env s req).1.client = some { id := s.clients, device := r.device_id } ∧
      (SendMessage env s req).1.clients = s.clients + 1 ∧
      (∃ rest, (SendMessage env s req).1.transport
        = s.transport ++
            constructionCalls s.databaseURL { id := s.clients, device := r.device_id } ++
            rest) ∧
      (∀ j, env.parseJID req.ToJID = .ok j → req.MessageType = "text" →
        (SendMessage env s req).1.transport
          = s.transport ++
              constructionCalls s.databaseURL { id := s.clients, device := r.device_id } ++
              [.sendMessage { id := s.clients, device := r.device_id } j req.MessageText] ∧
        (SendMessage env s req).2
          = (env.send { id := s.clients, device := r.device_id } j req.MessageText).mapError
              (fun e => "failed to send message: " ++ e))) ∧
    (∀ r e, env.queryErr = none →
      s.accounts.find? (ofTenant req.OrganizationID) = some r →
      r.is_connected = true → s.client = none →
      ((∃ e1, env.storeErr = some e1 ∧ e = "failed to create device store: " ++ e1) ∨
        (env.storeErr = none ∧
          ∃ e1, env.deviceErr r.device_id = some e1 ∧ e = "failed to get device: " ++ e1) ∨
        (env.storeErr = none ∧ env.deviceErr r.device_id = none ∧
          ∃ e1, env.connectErr = some e1 ∧ e = "failed to connect: " ++ e1)) →
      (SendMessage env s req).2 = .error ("failed to initialize client: " ++ e) ∧
      (SendMessage env s req).1.client = none ∧
      (SendMessage env s req).1.messages = s.messages) ∧
    ((SendMessage env s req).1.client = s.client ∨
      (s.client = none ∧
        ∃ device, (SendMessage env s req).1.client
          = some { id := s.clients, device := device })) := by
  refine ⟨?_, ?_, ?_, ?_, ?_⟩
  · intro c hcl
    unfold SendMessage
    cases hg : getAccount env s req.OrganizationID with
    | error e1 => exact ⟨hcl, rfl⟩
    | ok account =>
      simp only [hg]
      split_ifs with hcn
      · exact ⟨hcl, rfl⟩
      · simp only [hcl]
        have h := sendWithClient_client env s account req
        exact ⟨h.1.trans hcl, h.2⟩
  · intro h
    unfold SendMessage getAccount
    cases hq : env.queryErr with
    | some e => simp
    | none =>
      cases hf : s.accounts.find? (ofTenant req.OrganizationID) with
      | none => simp
      | some r =>
        have hr := h r hf
        simp [scanAccount, hr]
  · intro r hq hr hc hn h1 h2 h3
    have hi : initializeClient env s (scanAccount r)
        = ({ s with
              clients := s.clients + 1
              transport := s.transport ++
                constructionCalls s.databaseURL { id := s.clients, device := r.device_id }
              client := some { id := s.clients, device := r.device_id } }, none) := by
      simp [initializeClient, scanAccount, h1, h2, h3, constructionCalls]
    have hIs : (scanAccount r).IsConnected = true := hc
    have heq : SendMessage env s req
        = sendWithClient env
            { s with
              clients := s.clients + 1
              transport := s.transport ++
                constructionCalls s.databaseURL { id := s.clients, device := r.device_id }
              client := some { id := s.clients, device := r.device_id } }
            (scanAccount r) req := by
      unfold SendMessage getAccount
      simp only [hq, hr, hIs, hn, hi]
      rfl
    rw [heq]
    have h := sendWithClient_client env
      { s with
        clients := s.clients + 1
        transport := s.transport ++
          constructionCalls s.databaseURL { id := s.clients, device := r.device_id }
        client := some { id := s.clients, device := r.device_id } } (scanAccount r) req
    obtain ⟨rest, hrest⟩ := sendWithClient_transport env
      { s with
        clients := s.clients + 1
        transport := s.transport ++
          constructionCalls s.databaseURL { id := s.clients, device := r.device_id }
        client := some { id := s.clients, device := r.device_id } } (scanAccount r) req
    refine ⟨by simpa using h.1, by simpa using h.2, ⟨rest, by simpa using hrest⟩, ?_⟩
    intro j hj ht
    unfold sendWithClient
    simp only [hj]
    simp only [dispatch, ht, sendTextMessage]
    unfold saveMessage
    cases env.send { id := s.clients, device := r.device_id } j req.MessageText <;>
      cases env.execErr <;> simp [Except.mapError]
  · intro r e hq hr hc hn he
    have hIs : (scanAccount r).IsConnected = true := hc
    have hDev : (scanAccount r).DeviceID = r.device_id := rfl
    unfold SendMessage getAccount
    simp only [hq, hr, hIs, hn]
    unfold initializeClient
    rcases he with ⟨e1, h1, rfl⟩ | ⟨h1, e1, h2, rfl⟩ | ⟨h1, h2, e1, h3, rfl⟩
    · simp [h1, hn]
    · simp [h1, hDev, h2, hn]
    · simp [h1, hDev, h2, h3, hn]
  · unfold SendMessage
    cases hg : getAccount env s req.OrganizationID with
    | error e1 => exact Or.inl rfl
    | ok account =>
      simp only [hg]
      split_ifs with hcn
      · exact Or.inl rfl
      · cases hcl : s.client with
        | some c =>
          simp only []
          exact Or.inl ((sendWithClient_client env s account req).1.trans hcl)
        | none =>
          simp only []
          have hi := initializeClient_client env s account
          cases hp : initializeClient env s account with
          | mk s1 oe =>
            rw [hp] at hi
            cases oe with
            | some e1 =>
              rcases hi with ⟨h1, -⟩ | ⟨-, -, h3⟩
              · exact Or.inl (h1.trans hcl)
              · simp at h3
            | none =>
              rcases hi with ⟨-, h2⟩ | ⟨h1, -, -⟩
              · simp at h2
              · refine Or.inr ⟨trivial, account.DeviceID, ?_⟩
                exact (sendWithClient_client env s1 account req).1.trans h1

/-- C13, at a tenant marked connected without a client: with a transport that
rejects the text the client is constructed and stored and the send fails with
the error of the transport; with a failing `client.Connect` the send fails
with the error of the construction and the client field stays nil. -/
theorem SendMessage_constructs_only_when_nil_witness :
    ((SendMessage envSendFails (service [accountRow "CONNECTED" true none] none)
          (request "text")).1.client = some { id := 1, device := "dev1" } ∧
      (SendMessage envSendFails (service [accountRow "CONNECTED" true none] none)
          (request "text")).2
        = .error "failed to send message: websocket not connected") ∧
    ((SendMessage envConnectFails (service [accountRow "CONNECTED" true none] none)
          (request "text")).2
        = .error ("failed to initialize client: " ++ "failed to connect: dial timeout") ∧
      (SendMessage envConnectFails (service [accountRow "CONNECTED" true none] none)
          (request "text")).1.client = none ∧
      (SendMessage envConnectFails (service [accountRow "CONNECTED" true none] none)
          (request "text")).1.messages
        = (service [accountRow "CONNECTED" true none] none).messages) :=
  have h3 := (SendMessage_constructs_only_when_nil envSendFails
    (service [accountRow "CONNECTED" true none] none) (request "text")).2.2.1
    (accountRow "CONNECTED" true none) rfl (by decide) rfl rfl rfl rfl rfl
  have h4 := (SendMessage_constructs_only_when_nil envConnectFails
    (service [accountRow "CONNECTED" true none] none) (request "text")).2.2.2.1
    (accountRow "CONNECTED" true none) "failed to connect: dial timeout"
    rfl (by decide) rfl rfl (Or.inr (Or.inr ⟨rfl, rfl, "dial timeout", rfl, rfl⟩))
  ⟨⟨h3.1, (h3.2.2.2 { User := "1555@proto", Server := "s.whatsapp.net" } rfl rfl).2.trans
      (by decide)⟩, h4⟩

end WhatsMeow
